import Mathlib

/-!
Shallow embedding of the exclusion engine of `obsidian_capture`
(`src/obsidian_capture/exclude.py`) and proofs of the claimed properties.

Modelling conventions:

* An HTML document (BeautifulSoup tree) is a list of root `Node`s; a
  `Node` is either a text fragment or an element with a tag name, an
  attribute list and children.  `len(soup.find_all())` is the number of
  element nodes (`elemCountList`).
* The CSS engine (soupsieve) is an injected capability, as the design
  notes prescribe: an `Engine` takes a selector string and the tree it
  is run against and either fails (a raised exception, `Except.error`
  with the exception text) or yields the compiled node-local matcher;
  `soup.select(sel)` is then the list of element nodes whose data
  satisfies the matcher, in document order (`selectChildren`), and
  `decompose()`-ing every match leaves `pruneChildren`.
* Python `float` division is modelled with exact rationals `ℚ`; the
  0.4 threshold is `2/5`.
* A Python value that may be a non-string is modelled as
  `Option String` (`none` = not a string, e.g. `None`).
* A raised `TooManySelectorError` is modelled as `Except.error` carrying
  the exception message.
* Python string operations (`lower`, `strip`, `\b` regex matching) are
  modelled on `List Char`, ASCII-faithfully.
-/

/-- Element data: tag name and attribute list (name, value). -/
structure ElemData where
  tag : String
  attrs : List (String × String)
deriving Repr, DecidableEq

/-- A node of the parsed HTML tree: a text fragment or an element. -/
inductive Node where
  | text (s : String)
  | elem (data : ElemData) (children : List Node)
deriving Repr

mutual

/-- Number of element nodes in a subtree (the node itself included). -/
def elemCount : Node → Nat
  | .text _ => 0
  | .elem _ cs => 1 + elemCountList cs

/-- Number of element nodes below a list of roots: `len(soup.find_all())`. -/
def elemCountList : List Node → Nat
  | [] => 0
  | n :: ns => elemCount n + elemCountList ns

end

mutual

/-- All element nodes (as subtrees, document order) matching a node-local
predicate: `soup.select(sel)` for the compiled matcher of `sel`. -/
def selectNode (p : ElemData → Bool) : Node → List Node
  | .text _ => []
  | .elem d cs => (if p d then [Node.elem d cs] else []) ++ selectChildren p cs

/-- `selectNode` over a list of roots, document order. -/
def selectChildren (p : ElemData → Bool) : List Node → List Node
  | [] => []
  | n :: ns => selectNode p n ++ selectChildren p ns

end

mutual

/-- Remove (decompose) every subtree whose root element matches `p`;
returns `[]` when this node itself is removed. -/
def pruneNode (p : ElemData → Bool) : Node → List Node
  | .text s => [Node.text s]
  | .elem d cs => if p d then [] else [Node.elem d (pruneChildren p cs)]

/-- `pruneNode` over a list of roots. -/
def pruneChildren (p : ElemData → Bool) : List Node → List Node
  | [] => []
  | n :: ns => pruneNode p n ++ pruneChildren p ns

end

/-- The injected CSS query capability (soupsieve): given the selector string
and the tree `select` is invoked on, either raise (`error` with the
exception text) or yield the compiled node-local matcher. -/
def Engine : Type := String → List Node → Except String (ElemData → Bool)

/-- ASCII word character, as in the regex class `\w`. -/
def isWordChar (c : Char) : Bool := c.isAlphanum || c = '_'

/-- `str.lower()`, ASCII. -/
def pyLower (s : List Char) : List Char := s.map Char.toLower

/-- `str.strip()`: drop leading and trailing whitespace. -/
def pyStrip (s : List Char) : List Char :=
  ((s.dropWhile Char.isWhitespace).reverse.dropWhile Char.isWhitespace).reverse

/-- `re.match(tok ++ "\b", s)` for a literal token `tok`: `s` starts with
`tok` and the match ends at a word boundary. -/
def wordBoundaryMatch : List Char → List Char → Bool
  | [], [] => true
  | [], c :: _ => !isWordChar c
  | _ :: _, [] => false
  | t :: ts, c :: cs => t == c && wordBoundaryMatch ts cs

/-- `is_protected_selector` from `exclude.py`: empty or non-string input is
not protected; otherwise lowercase, strip, and match `^html\b` or `^body\b`. -/
def is_protected_selector : Option String → Bool
  | none => false
  | some s =>
    if s = "" then false
    else
      let selector_lower := pyStrip (pyLower s.toList)
      wordBoundaryMatch "html".toList selector_lower ||
        wordBoundaryMatch "body".toList selector_lower


/-- `ExclusionSelector` dataclass: a selector string and an optional
rejection reason. -/
structure ExclusionSelector where
  selector : String
  reason : Option String
deriving Repr, DecidableEq

/-- `SelectorResult` dataclass: result of applying one selector. -/
structure SelectorResult where
  selector : String
  success : Bool
  elements_removed : Nat
  error_message : Option String
deriving Repr, DecidableEq

/-- `ExclusionSummary` dataclass (stored fields only; `removal_ratio` and
`high_removal_warning` are derived properties below). -/
structure ExclusionSummary where
  selectors_processed : Nat
  elements_removed : Nat
  original_element_count : Nat
  successful_selectors : Nat
  failed_selectors : Nat
  empty_primary_content_warning : Bool
deriving Repr, DecidableEq

/-- `ExclusionSummary.removal_ratio` property: `elements_removed /
original_element_count`, `0.0` on an empty census (floats as `ℚ`). -/
def ExclusionSummary.removal_ratio (s : ExclusionSummary) : ℚ :=
  if s.original_element_count = 0 then 0
  else (s.elements_removed : ℚ) / (s.original_element_count : ℚ)

/-- `ExclusionSummary.high_removal_warning` property: ratio at or above the
40% threshold. -/
def ExclusionSummary.high_removal_warning (s : ExclusionSummary) : Bool :=
  decide (s.removal_ratio ≥ 2/5)

/-- `ValidationResult` dataclass. -/
structure ValidationResult where
  valid : List ExclusionSelector
  invalid : List ExclusionSelector
  total_count : Nat
  cap_exceeded : Bool
deriving Repr, DecidableEq

/-- The message of the raised `TooManySelectorError`. -/
def tooManyMsg (total_count max_selectors : Nat) : String :=
  "Too many selectors: " ++ toString total_count ++ " provided, limit is " ++
    toString max_selectors

/-- The scratch document `BeautifulSoup("<div></div>")` that
`validate_selectors` runs each selector against. -/
def scratch_soup : List Node := [Node.elem ⟨"div", []⟩ []]

/-- Body of the per-selector loop of `validate_selectors`: classify one
selector as valid (`inl`) or invalid-with-reason (`inr`). -/
def classify_selector (engine : Engine) : Option String → ExclusionSelector ⊕ ExclusionSelector
  | none => Sum.inr ⟨"", some "Empty or invalid selector"⟩
  | some s =>
    if s = "" then Sum.inr ⟨"", some "Empty or invalid selector"⟩
    else if is_protected_selector (some s) then
      Sum.inr ⟨s, some "Protected selector (html/body cannot be excluded)"⟩
    else
      match engine s scratch_soup with
      | Except.ok _ => Sum.inl ⟨s, none⟩
      | Except.error e => Sum.inr ⟨s, some ("Invalid CSS selector syntax: " ++ e)⟩

/-- The `valid` list accumulated by the loop of `validate_selectors`: the
classified-valid selectors, in input order. -/
def validPart (engine : Engine) (selectors : List (Option String)) :
    List ExclusionSelector :=
  selectors.filterMap (fun sel =>
    match classify_selector engine sel with
    | Sum.inl v => some v
    | Sum.inr _ => none)

/-- The `invalid` list accumulated by the loop of `validate_selectors`: the
rejected selectors with their reasons, in input order. -/
def invalidPart (engine : Engine) (selectors : List (Option String)) :
    List ExclusionSelector :=
  selectors.filterMap (fun sel =>
    match classify_selector engine sel with
    | Sum.inl _ => none
    | Sum.inr i => some i)

/-- `validate_selectors`: raise (`error`) with the cap message when the list
is over the cap, otherwise partition the selectors in input order. -/
def validate_selectors (engine : Engine) (max_selectors : Nat)
    (selectors : List (Option String)) : Except String ValidationResult :=
  let total_count := selectors.length
  if total_count > max_selectors then
    Except.error (tooManyMsg total_count max_selectors)
  else
    Except.ok
      { valid := validPart engine selectors
        invalid := invalidPart engine selectors
        total_count := total_count
        cap_exceeded := false }

/-- The valid-selector loop of `apply_exclusions`: run each selector against
the current tree, remove its matches, record one outcome per selector; an
engine exception becomes a failed outcome and processing continues. Returns
the final tree and the outcomes in order. -/
def run_selectors (engine : Engine) (soup : List Node) :
    List ExclusionSelector → List Node × List SelectorResult
  | [] => (soup, [])
  | esel :: rest =>
    match engine esel.selector soup with
    | Except.ok p =>
      let matching_elements := selectChildren p soup
      let next := run_selectors engine (pruneChildren p soup) rest
      (next.1, ⟨esel.selector, true, matching_elements.length, none⟩ :: next.2)
    | Except.error e =>
      let next := run_selectors engine soup rest
      (next.1, ⟨esel.selector, false, 0,
        some ("Failed to apply selector: " ++ e)⟩ :: next.2)

mutual

/-- Text fragments of a subtree in document order (`element.strings`). -/
def textFragments : Node → List String
  | .text s => [s]
  | .elem _ cs => textFragmentsList cs

/-- `textFragments` over a list of nodes. -/
def textFragmentsList : List Node → List String
  | [] => []
  | n :: ns => textFragments n ++ textFragmentsList ns

end

/-- `element.get_text(strip=True)`: join the stripped text fragments. -/
def get_text_strip (n : Node) : String :=
  String.join ((textFragments n).map (fun s => ⟨pyStrip s.toList⟩))

/-- Children of a node (empty for a text fragment). -/
def Node.childList : Node → List Node
  | .text _ => []
  | .elem _ cs => cs

/-- `element.find_all([...tags...])`: descendant elements (self excluded)
whose tag is one of the given names. -/
def find_all_tags (tags : List String) (n : Node) : List Node :=
  selectChildren (fun d => tags.contains d.tag) n.childList

/-- `has_meaningful_content` from `exclude.py`: images, links, non-whitespace
text, or rich content tags. -/
def has_meaningful_content (element : Node) : Bool :=
  if !(find_all_tags ["img"] element).isEmpty then true
  else if !(find_all_tags ["a"] element).isEmpty then true
  else if get_text_strip element ≠ "" then true
  else if !(find_all_tags
      ["video", "audio", "iframe", "form", "table", "canvas", "svg"]
      element).isEmpty then true
  else false

/-- `is_content_element_empty` from `exclude.py`. -/
def is_content_element_empty (element : Node) : Bool :=
  !(has_meaningful_content element)

/-- Compiled matcher of the selector `"article"`. -/
def isArticle (d : ElemData) : Bool := d.tag == "article"

/-- Compiled matcher of the selector `"main"`. -/
def isMain (d : ElemData) : Bool := d.tag == "main"

/-- Compiled matcher of the selector `[role="main"]`. -/
def isRoleMain (d : ElemData) : Bool :=
  d.attrs.any (fun kv => kv.1 == "role" && kv.2 == "main")

/-- The landmarks collected by the `PRIMARY_CONTENT_SELECTORS` loop of
`detect_empty_primary_content`: matches of `article`, `main`,
`[role="main"]`, in that order. -/
def primaryFound (soup : List Node) : List Node :=
  selectChildren isArticle soup ++ selectChildren isMain soup ++
    selectChildren isRoleMain soup

/-- `detect_empty_primary_content` from `exclude.py`. -/
def detect_empty_primary_content (soup : List Node) : Bool :=
  let found_primary_elements := primaryFound soup
  if found_primary_elements.isEmpty then true
  else if found_primary_elements.any has_meaningful_content then false
  else true

/-- `calculate_removal_ratio` from `exclude.py`. -/
def calculate_removal_ratio (removed_elements original_elements : Nat) : ℚ :=
  if original_elements = 0 then 0
  else (removed_elements : ℚ) / (original_elements : ℚ)

/-- `should_warn_high_removal` from `exclude.py`. -/
def should_warn_high_removal (ratio : ℚ) : Bool :=
  decide (ratio ≥ 2/5)

/-- `aggregate_exclusion_summary` from `exclude.py`. -/
def aggregate_exclusion_summary (selector_results : List SelectorResult)
    (original_count : Nat) (soup : List Node) : ExclusionSummary :=
  { selectors_processed := selector_results.length
    elements_removed := (selector_results.map (fun r => r.elements_removed)).sum
    original_element_count := original_count
    successful_selectors := (selector_results.filter (fun r => r.success)).length
    failed_selectors := (selector_results.filter (fun r => !r.success)).length
    empty_primary_content_warning := detect_empty_primary_content soup }

/-- `ExclusionResult` dataclass. -/
structure ExclusionResult where
  soup : List Node
  summary : ExclusionSummary
  selector_results : List SelectorResult

/-- `apply_exclusions` from `exclude.py`.  The first component of the result
is the tree object as the caller sees it after the call (the Python code
mutates it in place); the second is the normal return (`ok`) or the raised
`TooManySelectorError` (`error`). -/
def apply_exclusions (engine : Engine) (soup : List Node)
    (selectors : List (Option String)) :
    List Node × Except String ExclusionResult :=
  let original_element_count := elemCountList soup
  match validate_selectors engine 100 selectors with
  | Except.error e => (soup, Except.error e)
  | Except.ok validation =>
    let run := run_selectors engine soup validation.valid
    let selector_results := run.2 ++ validation.invalid.map (fun es =>
      { selector := es.selector, success := false, elements_removed := 0,
        error_message := es.reason })
    let summary := aggregate_exclusion_summary selector_results
      original_element_count run.1
    (run.1, Except.ok
      { soup := run.1, summary := summary, selector_results := selector_results })

/-- Substring test on character lists. -/
def listContainsSub (needle : List Char) : List Char → Bool
  | [] => needle.isEmpty
  | c :: rest => needle.isPrefixOf (c :: rest) || listContainsSub needle rest

/-- Substring test on strings: does `hay` contain `needle`? -/
def strContains (hay needle : String) : Bool :=
  listContainsSub needle.toList hay.toList

/-- The combined outcome list built by `apply_exclusions`: outcomes of the
valid selectors in order, then one failed outcome per rejected selector. -/
def applyResults (engine : Engine) (soup : List Node)
    (selectors : List (Option String)) : List SelectorResult :=
  (run_selectors engine soup (validPart engine selectors)).2 ++
    (invalidPart engine selectors).map (fun es =>
      { selector := es.selector, success := false, elements_removed := 0,
        error_message := es.reason })

/-- Sum of `elements_removed` over a list of selector outcomes. -/
def sumRemoved (rs : List SelectorResult) : Nat :=
  (rs.map (fun r => r.elements_removed)).sum

/-- An engine that raises on every query. -/
def failEngine : Engine := fun _ _ => Except.error "boom"

/-- An engine that compiles every selector to a tag-equality matcher. -/
def tagEngine : Engine := fun s _ => Except.ok (fun d => d.tag == s)

/-- A one-element document `<div></div>`. -/
def divSoup : List Node := [Node.elem ⟨"div", []⟩ []]

/-- The article element `<article>hello <a href="x">l</a></article>`. -/
def articleNode : Node :=
  Node.elem ⟨"article", []⟩
    [Node.text "hello", Node.elem ⟨"a", [("href", "x")]⟩ [Node.text "l"]]

/-- A document with one article landmark next to an empty `div`. -/
def articleSoup : List Node := [articleNode, Node.elem ⟨"div", []⟩ []]

theorem elemCountList_append (a b : List Node) :
    elemCountList (a ++ b) = elemCountList a + elemCountList b := by
  induction a with
  | nil => simp [elemCountList]
  | cons n ns ih => simp [elemCountList, ih]; omega

mutual

theorem prune_select_le (p : ElemData → Bool) :
    ∀ n : Node, elemCountList (pruneNode p n) + (selectNode p n).length ≤ elemCount n
  | .text s => by simp [pruneNode, selectNode, elemCount, elemCountList]
  | .elem d cs => by
    have h := prune_select_le_list p cs
    by_cases hp : p d
    · simp only [pruneNode, selectNode, hp, if_true, elemCountList, elemCount,
        List.length_append, List.length_cons, List.length_nil, List.singleton_append]
      omega
    · simp only [pruneNode, selectNode, hp, if_false, elemCountList, elemCount,
        List.length_append, List.length_nil, List.nil_append, Bool.false_eq_true]
      omega

theorem prune_select_le_list (p : ElemData → Bool) :
    ∀ l : List Node,
      elemCountList (pruneChildren p l) + (selectChildren p l).length ≤ elemCountList l
  | [] => by simp [pruneChildren, selectChildren, elemCountList]
  | n :: ns => by
    have h1 := prune_select_le p n
    have h2 := prune_select_le_list p ns
    simp only [pruneChildren, selectChildren, elemCountList, elemCountList_append,
      List.length_append]
    omega

end

mutual

theorem pruneNode_of_select_nil (p : ElemData → Bool) :
    ∀ n : Node, selectNode p n = [] → pruneNode p n = [n]
  | .text s => by intro _; simp [pruneNode]
  | .elem d cs => by
    intro h
    simp only [selectNode, List.append_eq_nil] at h
    have hp : p d = false := by
      rcases h with ⟨h1, _⟩
      by_cases hc : p d
      · simp [hc] at h1
      · simpa using hc
    have hcs := pruneChildren_of_select_nil p cs (by
      rcases h with ⟨_, h2⟩; exact h2)
    simp [pruneNode, hp, hcs]

theorem pruneChildren_of_select_nil (p : ElemData → Bool) :
    ∀ l : List Node, selectChildren p l = [] → pruneChildren p l = l
  | [] => by intro _; simp [pruneChildren]
  | n :: ns => by
    intro h
    simp only [selectChildren, List.append_eq_nil] at h
    have h1 := pruneNode_of_select_nil p n h.1
    have h2 := pruneChildren_of_select_nil p ns h.2
    simp [pruneChildren, h1, h2]

end

theorem sumRemoved_append (a b : List SelectorResult) :
    sumRemoved (a ++ b) = sumRemoved a + sumRemoved b := by
  simp [sumRemoved]

theorem run_selectors_length (engine : Engine) (soup : List Node)
    (l : List ExclusionSelector) :
    ((run_selectors engine soup l).2).length = l.length := by
  induction l generalizing soup with
  | nil => simp [run_selectors]
  | cons esel rest ih =>
    cases he : engine esel.selector soup with
    | ok p => simp [run_selectors, he, ih]
    | error e => simp [run_selectors, he, ih]

theorem run_selectors_census (engine : Engine) (soup : List Node)
    (l : List ExclusionSelector) :
    elemCountList (run_selectors engine soup l).1 +
      sumRemoved (run_selectors engine soup l).2 ≤ elemCountList soup := by
  induction l generalizing soup with
  | nil => simp [run_selectors, sumRemoved]
  | cons esel rest ih =>
    cases he : engine esel.selector soup with
    | ok p =>
      have h1 := prune_select_le_list p soup
      have h2 := ih (pruneChildren p soup)
      simp only [run_selectors, he, sumRemoved, List.map_cons, List.sum_cons] at *
      omega
    | error e =>
      have h2 := ih soup
      simp only [run_selectors, he, sumRemoved, List.map_cons, List.sum_cons] at *
      omega

theorem run_selectors_outcome (engine : Engine) (soup : List Node)
    (l : List ExclusionSelector) :
    ∀ r ∈ (run_selectors engine soup l).2,
      (r.success = true ↔ r.error_message = none) ∧
      (r.success = false → r.elements_removed = 0) := by
  induction l generalizing soup with
  | nil => simp [run_selectors]
  | cons esel rest ih =>
    intro r hr
    cases he : engine esel.selector soup with
    | ok p =>
      simp only [run_selectors, he, List.mem_cons] at hr
      rcases hr with rfl | hr
      · exact ⟨by simp, by simp⟩
      · exact ih _ r hr
    | error e =>
      simp only [run_selectors, he, List.mem_cons] at hr
      rcases hr with rfl | hr
      · exact ⟨by simp, by simp⟩
      · exact ih _ r hr

theorem classify_partition_length (engine : Engine) (l : List (Option String)) :
    (validPart engine l).length + (invalidPart engine l).length = l.length := by
  induction l with
  | nil => simp [validPart, invalidPart]
  | cons a l ih =>
    cases hc : classify_selector engine a with
    | inl v =>
      simp only [validPart, invalidPart, List.filterMap_cons, hc,
        List.length_cons] at *
      omega
    | inr i =>
      simp only [validPart, invalidPart, List.filterMap_cons, hc,
        List.length_cons] at *
      omega

theorem classify_inr_reason (engine : Engine) (sel : Option String)
    (i : ExclusionSelector) (h : classify_selector engine sel = Sum.inr i) :
    ∃ m, i.reason = some m := by
  cases sel with
  | none =>
    simp only [classify_selector, Sum.inr.injEq] at h
    exact ⟨_, by rw [← h]⟩
  | some s =>
    simp only [classify_selector] at h
    by_cases h1 : s = ""
    · simp only [h1, if_true, Sum.inr.injEq] at h
      exact ⟨_, by rw [← h]⟩
    · simp only [h1, if_false] at h
      by_cases h2 : is_protected_selector (some s)
      · simp only [h2, if_true, Sum.inr.injEq] at h
        exact ⟨_, by rw [← h]⟩
      · simp only [h2, Bool.false_eq_true, if_false] at h
        cases he : engine s scratch_soup with
        | ok p => rw [he] at h; simp at h
        | error e =>
          rw [he] at h
          simp only [Sum.inr.injEq] at h
          exact ⟨_, by rw [← h]⟩

theorem isPrefixOf_self_append (l s : List Char) : l.isPrefixOf (l ++ s) = true := by
  induction l with
  | nil => simp [List.isPrefixOf]
  | cons c cs ih => simp [List.isPrefixOf, ih]

theorem listContainsSub_middle (pre mid suf : List Char) :
    listContainsSub mid (pre ++ (mid ++ suf)) = true := by
  induction pre with
  | nil =>
    simp only [List.nil_append]
    cases h : mid ++ suf with
    | nil =>
      have hm : mid = [] := by
        cases mid
        · rfl
        · simp at h
      rw [hm]
      simp [listContainsSub]
    | cons c rest =>
      have hpre : mid.isPrefixOf (c :: rest) = true := by
        rw [← h]; exact isPrefixOf_self_append mid suf
      simp [listContainsSub, hpre]
  | cons c cs ih =>
    simp only [List.cons_append]
    simp [listContainsSub, ih]

theorem tooManyMsg_contains (n limit : Nat) :
    strContains (tooManyMsg n limit) (toString n) = true ∧
    strContains (tooManyMsg n limit) (toString limit) = true := by
  constructor
  · show listContainsSub (toString n).toList (tooManyMsg n limit).toList = true
    have hd : (tooManyMsg n limit).toList =
        "Too many selectors: ".toList ++ ((toString n).toList ++
          (" provided, limit is " ++ toString limit).toList) := by
      simp [tooManyMsg, String.toList, List.append_assoc]
    rw [hd]
    exact listContainsSub_middle _ _ _
  · show listContainsSub (toString limit).toList (tooManyMsg n limit).toList = true
    have hd : (tooManyMsg n limit).toList =
        ("Too many selectors: " ++ toString n ++ " provided, limit is ").toList ++
          ((toString limit).toList ++ []) := by
      simp [tooManyMsg, String.toList, List.append_assoc]
    rw [hd]
    exact listContainsSub_middle _ _ _

theorem validate_selectors_err (engine : Engine) (selectors : List (Option String))
    (h : selectors.length > 100) :
    validate_selectors engine 100 selectors =
      Except.error (tooManyMsg selectors.length 100) := by
  simp only [validate_selectors]
  rw [if_pos h]

theorem validate_selectors_ok (engine : Engine) (selectors : List (Option String))
    (h : ¬ selectors.length > 100) :
    validate_selectors engine 100 selectors =
      Except.ok ⟨validPart engine selectors, invalidPart engine selectors,
        selectors.length, false⟩ := by
  simp only [validate_selectors]
  rw [if_neg h]

theorem apply_exclusions_err (engine : Engine) (soup : List Node)
    (selectors : List (Option String)) (h : selectors.length > 100) :
    apply_exclusions engine soup selectors =
      (soup, Except.error (tooManyMsg selectors.length 100)) := by
  simp only [apply_exclusions, validate_selectors_err engine selectors h]

theorem apply_exclusions_ok (engine : Engine) (soup : List Node)
    (selectors : List (Option String)) (h : ¬ selectors.length > 100) :
    apply_exclusions engine soup selectors =
      ((run_selectors engine soup (validPart engine selectors)).1,
        Except.ok
          { soup := (run_selectors engine soup (validPart engine selectors)).1
            summary := aggregate_exclusion_summary
              (applyResults engine soup selectors) (elemCountList soup)
              (run_selectors engine soup (validPart engine selectors)).1
            selector_results := applyResults engine soup selectors }) := by
  simp only [apply_exclusions, validate_selectors_ok engine selectors h, applyResults]

theorem sumRemoved_invalid_map (l : List ExclusionSelector) :
    sumRemoved (l.map (fun es =>
      ({ selector := es.selector, success := false, elements_removed := 0,
         error_message := es.reason } : SelectorResult))) = 0 := by
  induction l with
  | nil => simp [sumRemoved]
  | cons a l ih => simpa [sumRemoved] using ih

theorem applyResults_removed_le (engine : Engine) (soup : List Node)
    (selectors : List (Option String)) :
    sumRemoved (applyResults engine soup selectors) ≤ elemCountList soup := by
  have h1 := run_selectors_census engine soup (validPart engine selectors)
  have h2 := sumRemoved_invalid_map (invalidPart engine selectors)
  simp only [applyResults, sumRemoved_append]
  omega

/-- C1: a selector list within the default cap of 100 validates without
raising; a longer list makes `validate_selectors` raise
`TooManySelectorError` whose message contains both the actual count and the
limit 100, and `apply_exclusions` then propagates the error with the tree
unchanged and zero outcomes produced. -/
theorem C1_selector_cap (engine : Engine) (soup : List Node)
    (selectors : List (Option String)) :
    (selectors.length ≤ 100 →
      ∃ v, validate_selectors engine 100 selectors = Except.ok v) ∧
    (selectors.length > 100 →
      validate_selectors engine 100 selectors =
        Except.error (tooManyMsg selectors.length 100) ∧
      strContains (tooManyMsg selectors.length 100)
        (toString selectors.length) = true ∧
      strContains (tooManyMsg selectors.length 100) (toString 100) = true ∧
      apply_exclusions engine soup selectors =
        (soup, Except.error (tooManyMsg selectors.length 100))) := by
  constructor
  · intro h
    exact ⟨_, validate_selectors_ok engine selectors (by omega)⟩
  · intro h
    exact ⟨validate_selectors_err engine selectors h,
      (tooManyMsg_contains _ _).1, (tooManyMsg_contains _ _).2,
      apply_exclusions_err engine soup selectors h⟩

/-- C1 witness: at 100 selectors validation succeeds; at 101 selectors the
error is raised before any mutation. -/
theorem C1_selector_cap_witness :
    (∃ v, validate_selectors tagEngine 100
      (List.replicate 100 (some "p")) = Except.ok v) ∧
    apply_exclusions tagEngine divSoup (List.replicate 101 (some "p")) =
      (divSoup, Except.error (tooManyMsg 101 100)) := by
  constructor
  · exact (C1_selector_cap tagEngine divSoup
      (List.replicate 100 (some "p"))).1 (by simp)
  · have h := ((C1_selector_cap tagEngine divSoup
      (List.replicate 101 (some "p"))).2 (by simp)).2.2.2
    simpa using h

/-- C2: within the cap `apply_exclusions` always returns normally — the only
exception that can cross its boundary is the cap error — and an engine
exception while executing one selector's query turns into a failed outcome
for that selector while processing continues with the rest. -/
theorem C2_exception_isolation (engine : Engine) (soup : List Node)
    (selectors : List (Option String)) :
    (selectors.length ≤ 100 →
      ∃ r, (apply_exclusions engine soup selectors).2 = Except.ok r) ∧
    (∀ m, (apply_exclusions engine soup selectors).2 = Except.error m →
      selectors.length > 100 ∧ m = tooManyMsg selectors.length 100) ∧
    (∀ esel rest e, engine esel.selector soup = Except.error e →
      run_selectors engine soup (esel :: rest) =
        ((run_selectors engine soup rest).1,
          { selector := esel.selector, success := false, elements_removed := 0,
            error_message :=
              some ("Failed to apply selector: " ++ e) } ::
            (run_selectors engine soup rest).2)) := by
  refine ⟨?_, ?_, ?_⟩
  · intro h
    rw [apply_exclusions_ok engine soup selectors (by omega)]
    exact ⟨_, rfl⟩
  · intro m hm
    by_cases hc : selectors.length > 100
    · rw [apply_exclusions_err engine soup selectors hc] at hm
      simp only [Except.error.injEq] at hm
      exact ⟨hc, hm.symm⟩
    · rw [apply_exclusions_ok engine soup selectors hc] at hm
      simp at hm
  · intro esel rest e he
    simp [run_selectors, he]

/-- C2 witness: an empty list applies normally, and a selector on which the
engine raises becomes a failed outcome while the run continues. -/
theorem C2_exception_isolation_witness :
    (∃ r, (apply_exclusions failEngine divSoup []).2 = Except.ok r) ∧
    run_selectors failEngine divSoup [⟨"p", none⟩] =
      ((run_selectors failEngine divSoup []).1,
        { selector := "p", success := false, elements_removed := 0,
          error_message := some ("Failed to apply selector: " ++ "boom") } ::
          (run_selectors failEngine divSoup []).2) := by
  constructor
  · exact (C2_exception_isolation failEngine divSoup []).1 (by simp)
  · exact (C2_exception_isolation failEngine divSoup []).2.2 ⟨"p", none⟩ [] "boom" rfl

/-- C3: `detect_empty_primary_content` reports true when no primary landmark
(article tag, main tag, role=main) matches at all; reports false as soon as
one collected landmark has meaningful content (image, link, non-whitespace
text, or a rich content tag); and reports true only when every collected
landmark is empty. -/
theorem C3_empty_primary_detection (soup : List Node) :
    (primaryFound soup = [] → detect_empty_primary_content soup = true) ∧
    (∀ e ∈ primaryFound soup, has_meaningful_content e = true →
      detect_empty_primary_content soup = false) ∧
    (detect_empty_primary_content soup = true →
      ∀ e ∈ primaryFound soup, has_meaningful_content e = false) := by
  refine ⟨?_, ?_, ?_⟩
  · intro h
    simp [detect_empty_primary_content, h]
  · intro e he hm
    have hne : (primaryFound soup).isEmpty = false := by
      cases hp : primaryFound soup
      · rw [hp] at he; simp at he
      · simp [hp]
    have hany : (primaryFound soup).any has_meaningful_content = true :=
      List.any_eq_true.mpr ⟨e, he, hm⟩
    simp [detect_empty_primary_content, hne, hany]
  · intro hd e he
    cases hq : has_meaningful_content e
    · rfl
    · exfalso
      have hne : (primaryFound soup).isEmpty = false := by
        cases hp : primaryFound soup
        · rw [hp] at he; simp at he
        · simp [hp]
      have hany : (primaryFound soup).any has_meaningful_content = true :=
        List.any_eq_true.mpr ⟨e, he, hq⟩
      rw [detect_empty_primary_content.eq_def] at hd
      simp [hne, hany] at hd

/-- C3 witness: a document whose only landmark is an article with a link and
text is not empty-primary. -/
theorem C3_empty_primary_detection_witness :
    detect_empty_primary_content articleSoup = false := by
  have hmem : articleNode ∈ primaryFound articleSoup := by
    have h : primaryFound articleSoup = [articleNode] := rfl
    rw [h]
    exact List.mem_singleton.mpr rfl
  exact (C3_empty_primary_detection articleSoup).2.1 articleNode hmem rfl

theorem ratio_bounds_of_removed_le (s : ExclusionSummary)
    (h : s.elements_removed ≤ s.original_element_count) :
    0 ≤ s.removal_ratio ∧ s.removal_ratio ≤ 1 := by
  unfold ExclusionSummary.removal_ratio
  by_cases h0 : s.original_element_count = 0
  · simp [h0]
  · rw [if_neg h0]
    have hpos : (0 : ℚ) < (s.original_element_count : ℚ) := by
      exact_mod_cast Nat.pos_of_ne_zero h0
    constructor
    · positivity
    · rw [div_le_one hpos]
      exact_mod_cast h

theorem ratio_zero_of_empty_census (s : ExclusionSummary)
    (h : s.original_element_count = 0) :
    s.removal_ratio = 0 ∧ s.high_removal_warning = false := by
  have hr : s.removal_ratio = 0 := by
    simp [ExclusionSummary.removal_ratio, h]
  refine ⟨hr, ?_⟩
  simp only [ExclusionSummary.high_removal_warning, hr,
    decide_eq_false_iff_not]
  norm_num

theorem aggregate_removed (rs : List SelectorResult) (c : Nat) (t : List Node) :
    (aggregate_exclusion_summary rs c t).elements_removed = sumRemoved rs := rfl

theorem aggregate_orig (rs : List SelectorResult) (c : Nat) (t : List Node) :
    (aggregate_exclusion_summary rs c t).original_element_count = c := rfl

/-- C4: every summary produced by `apply_exclusions` has a removal ratio in
`[0, 1]` (removed elements never exceed the pre-removal census), and on a
zero census the ratio is exactly 0 with the high-removal flag off. -/
theorem C4_ratio_bounds (engine : Engine) (soup : List Node)
    (selectors : List (Option String)) (r : ExclusionResult)
    (h : (apply_exclusions engine soup selectors).2 = Except.ok r) :
    0 ≤ r.summary.removal_ratio ∧ r.summary.removal_ratio ≤ 1 ∧
    (r.summary.original_element_count = 0 →
      r.summary.removal_ratio = 0 ∧ r.summary.high_removal_warning = false) := by
  by_cases hc : selectors.length > 100
  · rw [apply_exclusions_err engine soup selectors hc] at h
    simp at h
  · rw [apply_exclusions_ok engine soup selectors hc] at h
    simp only [Except.ok.injEq] at h
    subst h
    have hrem : sumRemoved (applyResults engine soup selectors) ≤
        elemCountList soup := applyResults_removed_le engine soup selectors
    obtain ⟨hb1, hb2⟩ := ratio_bounds_of_removed_le
      (aggregate_exclusion_summary (applyResults engine soup selectors)
        (elemCountList soup)
        (run_selectors engine soup (validPart engine selectors)).1)
      (by rw [aggregate_removed, aggregate_orig]; exact hrem)
    exact ⟨hb1, hb2, fun h0 => ratio_zero_of_empty_census _ h0⟩

/-- C4 witness: a one-selector run on a one-element document. -/
theorem C4_ratio_bounds_witness :
    0 ≤ (⟨1, 0, 1, 1, 0, true⟩ : ExclusionSummary).removal_ratio ∧
    (⟨1, 0, 1, 1, 0, true⟩ : ExclusionSummary).removal_ratio ≤ 1 ∧
    ((⟨1, 0, 1, 1, 0, true⟩ : ExclusionSummary).original_element_count = 0 →
      (⟨1, 0, 1, 1, 0, true⟩ : ExclusionSummary).removal_ratio = 0 ∧
      (⟨1, 0, 1, 1, 0, true⟩ : ExclusionSummary).high_removal_warning = false) :=
  C4_ratio_bounds tagEngine divSoup [some "p"]
    ⟨divSoup, ⟨1, 0, 1, 1, 0, true⟩, [⟨"p", true, 0, none⟩]⟩ rfl

/-- C5: the high-removal flag holds exactly when the removal ratio is at
least 0.4; the boundary 0.4 itself warns and any ratio strictly below 0.4
does not. -/
theorem C5_high_removal_threshold (s : ExclusionSummary) (q : ℚ) :
    (s.high_removal_warning = true ↔ s.removal_ratio ≥ 2/5) ∧
    should_warn_high_removal (2/5) = true ∧
    (q < 2/5 → should_warn_high_removal q = false) := by
  refine ⟨?_, ?_, ?_⟩
  · simp [ExclusionSummary.high_removal_warning]
  · simp [should_warn_high_removal]
  · intro hq
    simp only [should_warn_high_removal, decide_eq_false_iff_not]
    exact not_le.mpr hq

/-- C5 witness: a summary at exactly 2/5, the boundary itself, and the ratio
0.399 below it. -/
theorem C5_high_removal_threshold_witness :
    ((⟨1, 2, 5, 1, 0, false⟩ : ExclusionSummary).high_removal_warning = true ↔
      (⟨1, 2, 5, 1, 0, false⟩ : ExclusionSummary).removal_ratio ≥ 2/5) ∧
    should_warn_high_removal (2/5) = true ∧
    should_warn_high_removal (399/1000) = false := by
  obtain ⟨h1, h2, h3⟩ :=
    C5_high_removal_threshold ⟨1, 2, 5, 1, 0, false⟩ (399/1000)
  exact ⟨h1, h2, h3 (by norm_num)⟩

theorem length_filter_partition (rs : List SelectorResult) :
    (rs.filter (fun r => r.success)).length +
      (rs.filter (fun r => !r.success)).length = rs.length := by
  induction rs with
  | nil => simp
  | cons a l ih =>
    cases ha : a.success <;> simp [List.filter_cons, ha] <;> omega

theorem invalidPart_reason_isSome (engine : Engine)
    (selectors : List (Option String)) (es : ExclusionSelector)
    (hes : es ∈ invalidPart engine selectors) : ∃ m, es.reason = some m := by
  obtain ⟨sel, _, hcl⟩ := List.mem_filterMap.mp hes
  cases hc : classify_selector engine sel with
  | inl v => rw [hc] at hcl; simp at hcl
  | inr i =>
    rw [hc] at hcl
    simp only [Option.some.injEq] at hcl
    subst hcl
    exact classify_inr_reason engine sel i hc

/-- C6: every outcome of `apply_exclusions` has `success` exactly when there
is no error message and removed nothing when it failed; the summary
partition `successful + failed = processed` holds, with exactly one outcome
per input selector. -/
theorem C6_outcome_invariants (engine : Engine) (soup : List Node)
    (selectors : List (Option String)) (r : ExclusionResult)
    (h : (apply_exclusions engine soup selectors).2 = Except.ok r) :
    (∀ res ∈ r.selector_results,
      (res.success = true ↔ res.error_message = none) ∧
      (res.success = false → res.elements_removed = 0)) ∧
    r.summary.successful_selectors + r.summary.failed_selectors =
      r.summary.selectors_processed ∧
    r.selector_results.length = selectors.length ∧
    r.summary.selectors_processed = selectors.length := by
  by_cases hc : selectors.length > 100
  · rw [apply_exclusions_err engine soup selectors hc] at h
    simp at h
  · rw [apply_exclusions_ok engine soup selectors hc] at h
    simp only [Except.ok.injEq] at h
    subst h
    have hlen : (applyResults engine soup selectors).length = selectors.length := by
      simp only [applyResults, List.length_append, List.length_map,
        run_selectors_length]
      exact classify_partition_length engine selectors
    refine ⟨?_, ?_, hlen, hlen⟩
    · intro res hres
      simp only [applyResults, List.mem_append] at hres
      rcases hres with hres | hres
      · exact run_selectors_outcome engine soup _ res hres
      · obtain ⟨es, hes, hmap⟩ := List.mem_map.mp hres
        obtain ⟨m, hm⟩ := invalidPart_reason_isSome engine selectors es hes
        subst hmap
        simp [hm]
    · exact length_filter_partition _

/-- C6 witness: the one-selector run on the one-element document. -/
theorem C6_outcome_invariants_witness :
    (∀ res ∈ [(⟨"p", true, 0, none⟩ : SelectorResult)],
      (res.success = true ↔ res.error_message = none) ∧
      (res.success = false → res.elements_removed = 0)) ∧
    (⟨1, 0, 1, 1, 0, true⟩ : ExclusionSummary).successful_selectors +
      (⟨1, 0, 1, 1, 0, true⟩ : ExclusionSummary).failed_selectors =
      (⟨1, 0, 1, 1, 0, true⟩ : ExclusionSummary).selectors_processed ∧
    ([(⟨"p", true, 0, none⟩ : SelectorResult)]).length =
      [some "p"].length ∧
    (⟨1, 0, 1, 1, 0, true⟩ : ExclusionSummary).selectors_processed =
      [some "p"].length :=
  C6_outcome_invariants tagEngine divSoup [some "p"]
    ⟨divSoup, ⟨1, 0, 1, 1, 0, true⟩, [⟨"p", true, 0, none⟩]⟩ rfl

/-- C7: `is_protected_selector` classifies by the leading token only,
case-insensitively after trimming: `html`, `body`, `html.foo`, `body *` are
protected; `div.body` is not; empty and non-string inputs are not. -/
theorem C7_protected_examples :
    is_protected_selector (some "html") = true ∧
    is_protected_selector (some "body") = true ∧
    is_protected_selector (some "html.foo") = true ∧
    is_protected_selector (some "body *") = true ∧
    is_protected_selector (some " HTML.foo ") = true ∧
    is_protected_selector (some "div.body") = false ∧
    is_protected_selector (some "") = false ∧
    is_protected_selector none = false := by
  decide

/-- C8: the protection check runs before the syntax check: a protected
selector is rejected with the "protected" reason no matter what the engine
would say about its syntax, and that reason mentions "protected"
(case-insensitively), not a syntax error. -/
theorem C8_protection_checked_first (engine : Engine) (s : String)
    (selectors : List (Option String))
    (h : is_protected_selector (some s) = true) :
    classify_selector engine (some s) =
      Sum.inr ⟨s, some "Protected selector (html/body cannot be excluded)"⟩ ∧
    (∀ v, validate_selectors engine 100 selectors = Except.ok v →
      some s ∈ selectors →
      (⟨s, some "Protected selector (html/body cannot be excluded)"⟩ :
        ExclusionSelector) ∈ v.invalid) ∧
    listContainsSub "protected".toList
      (pyLower "Protected selector (html/body cannot be excluded)".toList) =
      true ∧
    listContainsSub "syntax".toList
      (pyLower "Protected selector (html/body cannot be excluded)".toList) =
      false := by
  have hs : s ≠ "" := by
    intro he
    rw [he] at h
    simp [is_protected_selector] at h
  have hcl : classify_selector engine (some s) =
      Sum.inr ⟨s, some "Protected selector (html/body cannot be excluded)"⟩ := by
    simp [classify_selector, hs, h]
  refine ⟨hcl, ?_, by decide, by decide⟩
  intro v hv hmem
  by_cases hc : selectors.length > 100
  · rw [validate_selectors_err engine selectors hc] at hv
    simp at hv
  · rw [validate_selectors_ok engine selectors hc] at hv
    simp only [Except.ok.injEq] at hv
    subst hv
    show _ ∈ invalidPart engine selectors
    exact List.mem_filterMap.mpr ⟨some s, hmem, by rw [hcl]⟩

/-- C8 witness: `html..` is protected and syntactically broken (the engine
rejects everything), yet its recorded reason is the protected one. -/
theorem C8_protection_checked_first_witness :
    classify_selector failEngine (some "html..") =
      Sum.inr ⟨"html..",
        some "Protected selector (html/body cannot be excluded)"⟩ ∧
    (⟨"html..", some "Protected selector (html/body cannot be excluded)"⟩ :
      ExclusionSelector) ∈
      (⟨[], [⟨"html..",
          some "Protected selector (html/body cannot be excluded)"⟩],
        1, false⟩ : ValidationResult).invalid := by
  obtain ⟨h1, h2, _, _⟩ :=
    C8_protection_checked_first failEngine "html.." [some "html.."] (by decide)
  exact ⟨h1, h2 _ rfl (by simp)⟩

/-- C9: a valid selector whose query finds zero matches at the time it runs
yields a successful outcome with zero elements removed, leaves the tree
untouched, and processing continues with the remaining selectors. -/
theorem C9_zero_match_success (engine : Engine) (p : ElemData → Bool)
    (soup : List Node) (esel : ExclusionSelector)
    (rest : List ExclusionSelector)
    (h1 : engine esel.selector soup = Except.ok p)
    (h2 : selectChildren p soup = []) :
    run_selectors engine soup (esel :: rest) =
      ((run_selectors engine soup rest).1,
        { selector := esel.selector, success := true, elements_removed := 0,
          error_message := none } :: (run_selectors engine soup rest).2) ∧
    pruneChildren p soup = soup := by
  have hp := pruneChildren_of_select_nil p soup h2
  constructor
  · simp [run_selectors, h1, h2, hp]
  · exact hp

/-- C9 witness: the selector `p` matches nothing in `<div></div>` and still
succeeds with zero removals. -/
theorem C9_zero_match_success_witness :
    run_selectors tagEngine divSoup [⟨"p", none⟩] =
      ((run_selectors tagEngine divSoup []).1,
        { selector := "p", success := true, elements_removed := 0,
          error_message := none } :: (run_selectors tagEngine divSoup []).2) ∧
    pruneChildren (fun d => d.tag == "p") divSoup = divSoup :=
  C9_zero_match_success tagEngine (fun d => d.tag == "p") divSoup ⟨"p", none⟩
    [] rfl rfl

/-- C10: the word-boundary pattern treats custom-element selectors whose
leading token merely begins with `html` or `body` followed by a non-word
character, such as `html-widget` and `body-content`, as protected even
though that token is not the `html` or `body` tag. -/
theorem C10_word_boundary_overmatch :
    is_protected_selector (some "html-widget") = true ∧
    is_protected_selector (some "body-content") = true ∧
    "html-widget" ≠ "html" ∧ "body-content" ≠ "body" := by
  refine ⟨by decide, by decide, by decide, by decide⟩
